import Mathlib

/-!
Verification of the authentication/authorization gateway of the
thakii-backend-api repository, shallowly embedded in Lean 4.

The embedding follows the Python sources:
* `src/core/custom_auth.py`      — session ("custom backend") token issue /
  verify / classify (`CustomTokenManager`);
* `src/core/auth_middleware.py`  — bearer extraction, token routing,
  `require_auth` / `require_admin` decorators, JWKS key-set cache;
* `src/package/core/admin_manager.py` — persisted admin registry
  (`AdminManager`) with super-admin protection.

Modelling conventions:
* Python dictionaries with optional/absent keys become structures with
  `Option` fields; an absent key and a key stored as `None` are conflated
  (the code only distinguishes them via `dict.get` defaults, and none of the
  verified properties depends on that distinction).
* Unix timestamps (`time.time()`, `datetime.utcnow().timestamp()`) are
  modelled as integers (`Int` for token clocks, `Nat` for the cache clock);
  ISO-format timestamp strings stored in admin records are modelled as `Nat`
  clock values.
* A JWT string is modelled by the abstract `Token` type: either its payload
  cannot be base64/JSON-decoded (`malformed`), or it decodes to a payload
  together with the fact whether its HS256 signature verifies under the
  system secret `CUSTOM_TOKEN_SECRET` (`signed payload sig_valid`).
  The SHA-256 `token_hash` fingerprint field of the payload is not modelled
  (no verified property mentions it).
* Network effects (the JWKS fetch) are modelled by an environment function
  `Nat → Jwks` giving the result of the n-th fetch, with a fetch counter
  threaded through the cache state.
-/

namespace Thakii

/-- The fixed super-admin set, duplicated verbatim in `auth_middleware.py`
(`SUPER_ADMINS`), `custom_auth.py` (inline list) and `admin_manager.py`
(`self.SUPER_ADMINS`). -/
def SUPER_ADMINS : List String := ["ouday.khaled@gmail.com", "appsaawt@gmail.com"]

/-- `CUSTOM_TOKEN_ISSUER` in `custom_auth.py`. -/
def CUSTOM_TOKEN_ISSUER : String := "thakii-backend"

/-- `CUSTOM_TOKEN_AUDIENCE` in `custom_auth.py`. -/
def CUSTOM_TOKEN_AUDIENCE : String := "thakii-frontend"

/-- `CUSTOM_TOKEN_EXPIRY_HOURS = 72` in `custom_auth.py`. -/
def CUSTOM_TOKEN_EXPIRY_HOURS : Int := 72

/-- Python truthiness of an optional string (`None` and `''` are falsy). -/
def truthy : Option String → Bool
  | some s => !(s = "")
  | none => false

/-- `s.split(sep)` for a single-character separator, with Python semantics
(splits at every occurrence, keeping empty fields; `''.split(c) = ['']`).
Implemented structurally so that it evaluates inside the kernel. -/
def split_char (c : Char) (s : String) : List String :=
  (s.data.foldr
    (fun ch acc =>
      match acc with
      | cur :: rest => if ch = c then [] :: cur :: rest else (ch :: cur) :: rest
      | [] => [[ch]])
    [[]]).map String.mk

/-- `s.startswith(p)` (structural, kernel-evaluable). -/
def starts_with (s p : String) : Bool := p.data.isPrefixOf s.data

/-- `c in s` for a character `c` (Python `'@' in email`). -/
def contains_char (s : String) (c : Char) : Bool := s.data.contains c

/-- `email.split('@')[0]`. -/
def local_part (e : String) : String := (split_char '@' e).headD e

/-- `email in SUPER_ADMINS if email else False` — the admin-flag computation
used (verbatim, three times) in `generate_custom_token`, `require_auth` and
`require_admin`. -/
def email_is_super_admin : Option String → Bool
  | some e => if e = "" then false else decide (e ∈ SUPER_ADMINS)
  | none => false

/-- Identity-provider (Firebase) claims, as consumed by
`generate_custom_token` and by the middleware's Firebase branch:
`uid`/`user_id`/`sub`, `email`, `name`, `picture`, `email_verified`,
`firebase.sign_in_provider` (flattened), `auth_time`. -/
structure FirebaseUserData where
  uid : Option String := none
  user_id : Option String := none
  sub : Option String := none
  email : Option String := none
  name : Option String := none
  picture : Option String := none
  email_verified : Option Bool := none
  sign_in_provider : Option String := none
  auth_time : Option Int := none
deriving DecidableEq

/-- `data.get('uid') or data.get('user_id') or data.get('sub')`:
the first truthy value of `uid`, `user_id`; otherwise `sub` verbatim
(Python `or` returns its second operand unchanged when the first is falsy). -/
def resolve_subject (d : FirebaseUserData) : Option String :=
  match truthy d.uid, truthy d.user_id with
  | true, _ => d.uid
  | false, true => d.user_id
  | false, false => d.sub

/-- The session-token payload built by `generate_custom_token` /
decoded by `verify_custom_token` (the `token_hash` fingerprint is omitted,
see the header comment). -/
structure CustomPayload where
  iss : Option String := none
  aud : Option String := none
  iat : Option Int := none
  exp : Option Int := none
  nbf : Option Int := none
  user_id : Option String := none
  email : Option String := none
  name : Option String := none
  picture : Option String := none
  email_verified : Option Bool := none
  token_type : Option String := none
  token_version : Option String := none
  is_admin : Option Bool := none
  firebase_provider : Option String := none
  auth_time : Option Int := none
deriving DecidableEq

/-- A JWT string, abstracted: either its payload cannot be decoded at all,
or it decodes to `payload` and `sig_valid` records whether its signature
verifies under the system's `CUSTOM_TOKEN_SECRET`. -/
inductive Token where
  | malformed : Token
  | signed (payload : CustomPayload) (sig_valid : Bool) : Token
deriving DecidableEq

/-- `CustomTokenManager.generate_custom_token` (`custom_auth.py`).
`now` is `int(datetime.utcnow().timestamp())`; since
`int((now + timedelta(hours=72)).timestamp()) = int(now.timestamp()) + 259200`,
the payload's `exp` is `now + 72*3600`. -/
def generate_custom_token (d : FirebaseUserData) (now : Int) : CustomPayload :=
  { iss := some CUSTOM_TOKEN_ISSUER
    aud := some CUSTOM_TOKEN_AUDIENCE
    iat := some now
    exp := some (now + CUSTOM_TOKEN_EXPIRY_HOURS * 3600)
    nbf := some now
    user_id := resolve_subject d
    email := d.email
    name := some (d.name.getD (if truthy d.email then local_part (d.email.getD "") else "Unknown"))
    picture := d.picture
    email_verified := some (d.email_verified.getD false)
    token_type := some "custom_backend"
    token_version := some "1.0"
    is_admin := some (email_is_super_admin d.email)
    firebase_provider := some (d.sign_in_provider.getD "unknown")
    auth_time := d.auth_time }

/-- The distinct failure kinds surfaced by `verify_custom_token`.  Every kind
is re-raised in the Python code as a `jwt.InvalidTokenError` carrying a
distinguishing message (noted per constructor). -/
inductive TokenError where
  /-- the token string cannot be decoded (`jwt.DecodeError`, wrapped as
  "Token verification failed: ..."). -/
  | undecodable
  /-- the HS256 signature does not verify (`InvalidSignatureError`,
  wrapped as "Token verification failed: Signature verification failed"). -/
  | signatureInvalid
  /-- a claim of the `require` list (`exp`, `iat`, `user_id`, `email`) is
  absent (`MissingRequiredClaimError`, wrapped as
  "Token verification failed: Token is missing the ... claim"). -/
  | missingClaim (claim : String)
  /-- `nbf` is in the future (`ImmatureSignatureError`, wrapped as
  "Token verification failed: The token is not yet valid (nbf)"). -/
  | immature
  /-- `exp` has passed (`ExpiredSignatureError` → "Token has expired"). -/
  | expired
  /-- `aud` mismatch (`InvalidAudienceError` → "Invalid token audience"). -/
  | invalidAudience
  /-- `iss` mismatch (`InvalidIssuerError` → "Invalid token issuer"). -/
  | invalidIssuer
  /-- the discriminator `token_type` is not `'custom_backend'`
  (raised as "Token verification failed: Invalid token type"). -/
  | invalidTokenType
deriving DecidableEq

/-- PyJWT required-claim validation for
`require = ['exp', 'iat', 'user_id', 'email']`: the first claim of the list
whose value is absent yields `MissingRequiredClaimError`. -/
def check_required (p : CustomPayload) : Option TokenError :=
  if p.exp.isNone then some (.missingClaim "exp")
  else if p.iat.isNone then some (.missingClaim "iat")
  else if p.user_id.isNone then some (.missingClaim "user_id")
  else if p.email.isNone then some (.missingClaim "email")
  else none

/-- PyJWT `nbf` validation (`verify_nbf`, checked when the claim is present):
fails when `now < nbf`. -/
def check_nbf (p : CustomPayload) (now : Int) : Option TokenError :=
  match p.nbf with
  | some n => if now < n then some .immature else none
  | none => none

/-- PyJWT `exp` validation (`verify_exp`, checked when the claim is present):
fails when `exp ≤ now`. -/
def check_exp (p : CustomPayload) (now : Int) : Option TokenError :=
  match p.exp with
  | some e => if e ≤ now then some .expired else none
  | none => none

/-- PyJWT audience validation against `CUSTOM_TOKEN_AUDIENCE`
(an absent `aud` raises `MissingRequiredClaimError`). -/
def check_aud (p : CustomPayload) : Option TokenError :=
  match p.aud with
  | some a => if a = CUSTOM_TOKEN_AUDIENCE then none else some .invalidAudience
  | none => some (.missingClaim "aud")

/-- PyJWT issuer validation against `CUSTOM_TOKEN_ISSUER`
(an absent `iss` raises `MissingRequiredClaimError`). -/
def check_iss (p : CustomPayload) : Option TokenError :=
  match p.iss with
  | some i => if i = CUSTOM_TOKEN_ISSUER then none else some .invalidIssuer
  | none => some (.missingClaim "iss")

/-- Sequencing of claim checks: first failure wins. -/
def firstSome (a b : Option TokenError) : Option TokenError :=
  match a with
  | some e => some e
  | none => b

/-- PyJWT claim validation as configured in `verify_custom_token`
(`require` list first, then `nbf`, `exp`, audience, issuer; `iat`
validation only type-checks the claim and cannot fail on an integer model). -/
def pyjwt_validate_claims (p : CustomPayload) (now : Int) : Option TokenError :=
  firstSome (check_required p)
    (firstSome (check_nbf p now)
      (firstSome (check_exp p now)
        (firstSome (check_aud p) (check_iss p))))

/-- `CustomTokenManager.verify_custom_token` (`custom_auth.py`):
decode (signature check), PyJWT claim validation, then the explicit
discriminator check `payload.get('token_type') != 'custom_backend'`. -/
def verify_custom_token (t : Token) (now : Int) : Except TokenError CustomPayload :=
  match t with
  | .malformed => .error .undecodable
  | .signed p sig_ok =>
    if sig_ok then
      match pyjwt_validate_claims p now with
      | some e => .error e
      | none =>
        if p.token_type = some "custom_backend" then .ok p
        else .error .invalidTokenType
    else .error .signatureInvalid

/-- `CustomTokenManager.is_custom_token` (`custom_auth.py`): decode the
payload without verifying the signature; `True` iff
`token_type == 'custom_backend'` and `iss == CUSTOM_TOKEN_ISSUER`;
any decode failure yields `False`. -/
def is_custom_token : Token → Bool
  | .malformed => false
  | .signed p _ => p.token_type = some "custom_backend" && p.iss = some CUSTOM_TOKEN_ISSUER

/-- The payload a token decodes to, ignoring its signature
(`jwt.decode(..., options={"verify_signature": False})`). -/
def token_payload : Token → Option CustomPayload
  | .malformed => none
  | .signed p _ => some p

/-- C8: Every session token produced by `generate_custom_token` has
`exp = iat + 72 * 3600` (exactly 259200 seconds past issuance) and carries
the discriminator `token_type = 'custom_backend'`. -/
theorem C8_expiry_and_discriminator (d : FirebaseUserData) (now : Int) :
    (generate_custom_token d now).iat = some now ∧
    (generate_custom_token d now).exp = some (now + 259200) ∧
    (generate_custom_token d now).token_type = some "custom_backend" := by
  refine ⟨rfl, ?_, rfl⟩
  show some (now + CUSTOM_TOKEN_EXPIRY_HOURS * 3600) = some (now + 259200)
  norm_num [CUSTOM_TOKEN_EXPIRY_HOURS]

/-- C7: `is_custom_token` is a function of the decoded payload only (tokens
with identical payloads — in particular the same payload with a tampered
signature — classify identically); it is `true` exactly when the payload
decodes, its discriminator is `'custom_backend'` and its issuer is the fixed
system issuer; and it is `false` whenever the payload cannot be decoded. -/
theorem C7_classifier_payload_only :
    (∀ t₁ t₂ : Token, token_payload t₁ = token_payload t₂ →
      is_custom_token t₁ = is_custom_token t₂) ∧
    (∀ (t : Token) (p : CustomPayload), token_payload t = some p →
      (is_custom_token t = true ↔
        (p.token_type = some "custom_backend" ∧ p.iss = some CUSTOM_TOKEN_ISSUER))) ∧
    (∀ t : Token, token_payload t = none → is_custom_token t = false) := by
  refine ⟨?_, ?_, ?_⟩
  · intro t₁ t₂ h
    cases t₁ <;> cases t₂ <;> simp_all [token_payload, is_custom_token]
  · intro t p h
    cases t with
    | malformed => simp [token_payload] at h
    | signed q b =>
      simp only [token_payload, Option.some.injEq] at h
      subst h
      simp [is_custom_token]
  · intro t h
    cases t <;> simp_all [token_payload, is_custom_token]

/-- Concrete payload used by witnesses: the regular (non-admin) session
payload for subject `u1` / email `a@b.com`, issued at time 0. -/
def wPayload : CustomPayload :=
  generate_custom_token { uid := some "u1", email := some "a@b.com" } 0

/-- Witness for C7: the classifier agrees on a correctly-signed and a
tampered copy of the same payload, and that shared value is `true`. -/
theorem C7_witness :
    is_custom_token (.signed wPayload true) = is_custom_token (.signed wPayload false) ∧
    is_custom_token (.signed wPayload false) = true :=
  ⟨C7_classifier_payload_only.1 (.signed wPayload true) (.signed wPayload false) rfl,
   (C7_classifier_payload_only.2.1 (.signed wPayload false) wPayload rfl).mpr ⟨rfl, rfl⟩⟩

/-- Inversion helper: a successful `verify_custom_token` on a decodable token
means the signature verified, every claim check passed, the discriminator is
correct, and the returned payload is the decoded one. -/
theorem verify_ok_elim {p : CustomPayload} {b : Bool} {now : Int} {q : CustomPayload}
    (h : verify_custom_token (.signed p b) now = .ok q) :
    b = true ∧ pyjwt_validate_claims p now = none ∧
    p.token_type = some "custom_backend" ∧ q = p := by
  cases b with
  | false => simp [verify_custom_token] at h
  | true =>
    refine ⟨rfl, ?_⟩
    cases hv : pyjwt_validate_claims p now with
    | some e => rw [verify_custom_token.eq_def] at h; simp [hv] at h
    | none =>
      rw [verify_custom_token.eq_def] at h
      simp only [if_true, hv] at h
      split at h
      · exact ⟨rfl, by assumption, by injection h with h; exact h.symm⟩
      · simp at h

/-- Inversion helper: passing the whole PyJWT claim validation means each
individual check passed. -/
theorem validate_none_elim {p : CustomPayload} {now : Int}
    (h : pyjwt_validate_claims p now = none) :
    check_required p = none ∧ check_nbf p now = none ∧ check_exp p now = none ∧
    check_aud p = none ∧ check_iss p = none := by
  unfold pyjwt_validate_claims at h
  cases h₁ : check_required p <;> rw [h₁] at h <;> simp [firstSome] at h ⊢
  cases h₂ : check_nbf p now <;> rw [h₂] at h <;> simp [firstSome] at h ⊢
  cases h₃ : check_exp p now <;> rw [h₃] at h <;> simp [firstSome] at h ⊢
  cases h₄ : check_aud p <;> rw [h₄] at h <;> simp [firstSome] at h ⊢
  exact h

/-- Inversion helper: a passing required-claims check means all four claims of
the `require` list are present. -/
theorem check_required_none_elim {p : CustomPayload}
    (h : check_required p = none) :
    p.exp ≠ none ∧ p.iat ≠ none ∧ p.user_id ≠ none ∧ p.email ≠ none := by
  unfold check_required at h
  split_ifs at h with h₁ h₂ h₃ h₄
  simp_all [Option.isNone_iff_eq_none]

/-- C3: issuing a session token from identity claims that carry a subject
identifier (resolved from the `uid`/`user_id`/`sub` keys) and an email, and
verifying the correctly-signed result at any time `t` from issuance up to (but
excluding) expiry, succeeds and returns a payload whose subject id is that
identifier, whose email is that email, and whose admin flag is exactly the
email's membership in the fixed super-admin set. -/
theorem C3_issue_verify_roundtrip (d : FirebaseUserData) (now t : Int) (u e : String)
    (hu : resolve_subject d = some u) (he : d.email = some e)
    (h₁ : now ≤ t) (h₂ : t < now + 259200) :
    verify_custom_token (.signed (generate_custom_token d now) true) t
      = .ok (generate_custom_token d now) ∧
    (generate_custom_token d now).user_id = some u ∧
    (generate_custom_token d now).email = some e ∧
    (generate_custom_token d now).is_admin = some (decide (e ∈ SUPER_ADMINS)) := by
  have hexp : CUSTOM_TOKEN_EXPIRY_HOURS * 3600 = 259200 := by
    norm_num [CUSTOM_TOKEN_EXPIRY_HOURS]
  refine ⟨?_, ?_, he, ?_⟩
  · have hnlt : ¬ t < now := by omega
    have hnexp : ¬ now + 259200 ≤ t := by omega
    have hval : pyjwt_validate_claims (generate_custom_token d now) t = none := by
      simp only [pyjwt_validate_claims, check_required, check_nbf, check_exp, check_aud,
        check_iss, generate_custom_token, firstSome, hu, he, hexp]
      simp [hnlt, hnexp]
    have htt : (generate_custom_token d now).token_type = some "custom_backend" := rfl
    simp [verify_custom_token, hval, htt]
  · simpa [generate_custom_token] using hu
  · simp only [generate_custom_token, he, email_is_super_admin, Option.some.injEq]
    by_cases h : e = "" <;> simp [h]
    subst h; decide

/-- Witness for C3: the Scenario-A token (subject `u1`, email `a@b.com`,
issued at 0) verifies at time 0 and reports a non-admin payload. -/
theorem C3_witness :
    verify_custom_token (.signed wPayload true) 0 = .ok wPayload ∧
    wPayload.user_id = some "u1" ∧ wPayload.email = some "a@b.com" ∧
    wPayload.is_admin = some (decide ("a@b.com" ∈ SUPER_ADMINS)) :=
  C3_issue_verify_roundtrip { uid := some "u1", email := some "a@b.com" } 0 0
    "u1" "a@b.com" rfl rfl (by decide) (by decide)

/-- C4: `verify_custom_token` returns an error (never a payload) whenever
(a) the token's `exp` lies before the verification time — and, when the
signature verifies and every earlier check (`require` list, `nbf`) passes,
that error is `expired`;
(b) any of the four required claims `exp`, `iat`, `user_id`, `email` is
absent — and, when the signature verifies, the error is a `missingClaim`;
(c) the issuer or the audience differs from the fixed system
issuer/audience;
(d) the discriminator `token_type` is not the session-token marker — and,
when the signature verifies and PyJWT claim validation passes, the error is
`invalidTokenType`. -/
theorem C4_verify_error_cases :
    (∀ (p : CustomPayload) (b : Bool) (now e : Int), p.exp = some e → e < now →
      ((∀ q, verify_custom_token (.signed p b) now ≠ .ok q) ∧
       (b = true → check_required p = none → check_nbf p now = none →
         verify_custom_token (.signed p b) now = .error .expired))) ∧
    (∀ (p : CustomPayload) (b : Bool) (now : Int),
      (p.exp = none ∨ p.iat = none ∨ p.user_id = none ∨ p.email = none) →
      ((∀ q, verify_custom_token (.signed p b) now ≠ .ok q) ∧
       (b = true → ∃ c, verify_custom_token (.signed p b) now = .error (.missingClaim c)))) ∧
    (∀ (p : CustomPayload) (b : Bool) (now : Int),
      (p.iss ≠ some CUSTOM_TOKEN_ISSUER ∨ p.aud ≠ some CUSTOM_TOKEN_AUDIENCE) →
      ∀ q, verify_custom_token (.signed p b) now ≠ .ok q) ∧
    (∀ (p : CustomPayload) (b : Bool) (now : Int),
      p.token_type ≠ some "custom_backend" →
      ((∀ q, verify_custom_token (.signed p b) now ≠ .ok q) ∧
       (b = true → pyjwt_validate_claims p now = none →
         verify_custom_token (.signed p b) now = .error .invalidTokenType))) := by
  refine ⟨?_, ?_, ?_, ?_⟩
  · intro p b now e he hlt
    constructor
    · intro q hq
      obtain ⟨-, hval, -, -⟩ := verify_ok_elim hq
      obtain ⟨-, -, hexp, -, -⟩ := validate_none_elim hval
      simp only [check_exp, he] at hexp
      rw [if_pos (by omega : e ≤ now)] at hexp
      exact Option.noConfusion hexp
    · rintro rfl hreq hnbf
      have hce : check_exp p now = some .expired := by
        simp only [check_exp, he]
        rw [if_pos (by omega : e ≤ now)]
      have hval : pyjwt_validate_claims p now = some .expired := by
        simp [pyjwt_validate_claims, hreq, hnbf, firstSome, hce]
      simp [verify_custom_token, hval]
  · intro p b now hmiss
    have hreq : ∃ c, check_required p = some (.missingClaim c) := by
      unfold check_required
      rcases hmiss with h | h | h | h <;> simp [h]
      · by_cases h1 : p.exp = none <;> simp [h1]
      · by_cases h1 : p.exp = none <;> by_cases h2 : p.iat = none <;> simp [h1, h2, h]
      · by_cases h1 : p.exp = none <;> by_cases h2 : p.iat = none <;>
          by_cases h3 : p.user_id = none <;> simp [h1, h2, h3, h]
    obtain ⟨c, hreq⟩ := hreq
    have hval : pyjwt_validate_claims p now = some (.missingClaim c) := by
      simp [pyjwt_validate_claims, hreq, firstSome]
    constructor
    · intro q hq
      obtain ⟨-, hnone, -, -⟩ := verify_ok_elim hq
      rw [hval] at hnone
      exact Option.noConfusion hnone
    · rintro rfl
      exact ⟨c, by simp [verify_custom_token, hval]⟩
  · intro p b now hmism q hq
    obtain ⟨-, hval, -, -⟩ := verify_ok_elim hq
    obtain ⟨-, -, -, haud, hiss⟩ := validate_none_elim hval
    rcases hmism with h | h
    · cases hi : p.iss with
      | none => simp [check_iss, hi] at hiss
      | some i =>
        simp only [check_iss, hi] at hiss
        rcases eq_or_ne i CUSTOM_TOKEN_ISSUER with hieq | hieq
        · exact h (by rw [hi, hieq])
        · rw [if_neg hieq] at hiss; exact Option.noConfusion hiss
    · cases ha : p.aud with
      | none => simp [check_aud, ha] at haud
      | some a =>
        simp only [check_aud, ha] at haud
        rcases eq_or_ne a CUSTOM_TOKEN_AUDIENCE with haeq | haeq
        · exact h (by rw [ha, haeq])
        · rw [if_neg haeq] at haud; exact Option.noConfusion haud
  · intro p b now htt
    constructor
    · intro q hq
      obtain ⟨-, -, htt', -⟩ := verify_ok_elim hq
      exact htt htt'
    · rintro rfl hval
      simp [verify_custom_token, hval, htt]

/-- Payload used by the C4 witness: well-formed except that it expired at
time 10. -/
def wExpiredPayload : CustomPayload :=
  { iss := some CUSTOM_TOKEN_ISSUER, aud := some CUSTOM_TOKEN_AUDIENCE,
    iat := some 0, exp := some 10, nbf := some 0,
    user_id := some "u1", email := some "a@b.com",
    token_type := some "custom_backend" }

/-- Witness for C4: the expired payload yields `expired` at time 100; a
payload missing `user_id` yields a `missingClaim`; a wrong discriminator
yields `invalidTokenType`. -/
theorem C4_witness :
    verify_custom_token (.signed wExpiredPayload true) 100 = .error .expired ∧
    (∃ c, verify_custom_token (.signed { wExpiredPayload with user_id := none } true) 5
      = .error (.missingClaim c)) ∧
    verify_custom_token (.signed { wExpiredPayload with token_type := some "x" } true) 5
      = .error .invalidTokenType := by
  refine ⟨?_, ?_, ?_⟩
  · exact (C4_verify_error_cases.1 wExpiredPayload true 100 10 rfl (by decide)).2 rfl rfl rfl
  · exact (C4_verify_error_cases.2.1 { wExpiredPayload with user_id := none } true 5
      (Or.inr (Or.inr (Or.inl rfl)))).2 rfl
  · exact (C4_verify_error_cases.2.2.2 { wExpiredPayload with token_type := some "x" } true 5
      (by decide)).2 rfl rfl

/-- The normalized user shape stored in `g.current_user`.  The custom-token
branch (`extract_user_info`) populates `token_expires_at`/`token_issued_at`
and no `token_type` key; the Firebase branch populates `token_type` and
neither timestamp key.  Keys a branch does not set are `none`. -/
structure UserContext where
  uid : Option String := none
  email : Option String := none
  name : Option String := none
  picture : Option String := none
  email_verified : Bool := false
  is_admin : Bool := false
  firebase_provider : Option String := none
  auth_time : Option Int := none
  token_expires_at : Option Int := none
  token_issued_at : Option Int := none
  token_type : Option String := none
deriving DecidableEq

/-- `CustomTokenManager.extract_user_info` (`custom_auth.py`). -/
def extract_user_info (p : CustomPayload) : UserContext :=
  { uid := p.user_id
    email := p.email
    name := p.name
    picture := p.picture
    email_verified := p.email_verified.getD false
    is_admin := p.is_admin.getD false
    firebase_provider := p.firebase_provider
    auth_time := p.auth_time
    token_expires_at := p.exp
    token_issued_at := p.iat }

/-- A successfully verified token as returned by `verify_auth_token`: the
decoded claims tagged with `_token_type` (`'custom'` or `'firebase'`). -/
inductive TokenData where
  | custom (p : CustomPayload)
  | firebase (c : FirebaseUserData)
deriving DecidableEq

/-- The Firebase-branch user context built inside `require_auth`
(`auth_middleware.py`): admin flag from super-admin-set membership. -/
def firebase_user_context_auth (c : FirebaseUserData) : UserContext :=
  { uid := resolve_subject c
    email := c.email
    name := some (c.name.getD (if truthy c.email then local_part (c.email.getD "") else "Unknown"))
    picture := c.picture
    email_verified := c.email_verified.getD false
    is_admin := email_is_super_admin c.email
    firebase_provider := c.sign_in_provider
    auth_time := c.auth_time
    token_type := some "firebase" }

/-- The Firebase-branch user context built inside `require_admin`
(`auth_middleware.py`): identical except the admin flag is the literal
`True` (the privilege check has already passed). -/
def firebase_user_context_admin (c : FirebaseUserData) : UserContext :=
  { uid := resolve_subject c
    email := c.email
    name := some (c.name.getD (if truthy c.email then local_part (c.email.getD "") else "Unknown"))
    picture := c.picture
    email_verified := c.email_verified.getD false
    is_admin := true
    firebase_provider := c.sign_in_provider
    auth_time := c.auth_time
    token_type := some "firebase" }

/-- The human-readable message `verify_auth_token` surfaces for each
`verify_custom_token` failure (the `str()` of the re-raised
`jwt.InvalidTokenError`; for `undecodable` the concrete `DecodeError` text
depends on the malformation and is summarized). -/
def token_error_msg : TokenError → String
  | .undecodable => "Token verification failed: Invalid token"
  | .signatureInvalid => "Token verification failed: Signature verification failed"
  | .missingClaim c => "Token verification failed: Token is missing the \"" ++ c ++ "\" claim"
  | .immature => "Token verification failed: The token is not yet valid (nbf)"
  | .expired => "Token has expired"
  | .invalidAudience => "Invalid token audience"
  | .invalidIssuer => "Invalid token issuer"
  | .invalidTokenType => "Token verification failed: Invalid token type"

/-- `verify_auth_token` (`auth_middleware.py`).  `auth_header` is
`request.headers.get('Authorization')`; `decode` maps a token string to its
abstract `Token` (the base64/JSON decode relation); `fb` is the Firebase
verification path (Admin SDK attempt plus JWKS fallback), abstracted as an
environment returning either decoded identity claims or the failure message
string.  Mirrors the source exactly: a falsy (absent or empty) header fails
first; a header not starting with `'Bearer '` fails next; then the token
(`auth_header.split(' ')[1]`) is classified with `is_custom_token` and
routed. -/
def verify_auth_token (auth_header : Option String) (decode : String → Token)
    (fb : String → Except String FirebaseUserData) (now : Int) :
    Except String TokenData :=
  match auth_header with
  | none => .error "No Authorization header provided"
  | some h =>
    if h = "" then .error "No Authorization header provided"
    else if starts_with h "Bearer " then
      let token := (split_char ' ' h).getD 1 ""
      if is_custom_token (decode token) then
        match verify_custom_token (decode token) now with
        | .ok p => .ok (.custom p)
        | .error e => .error ("Custom token verification failed: " ++ token_error_msg e)
      else
        match fb token with
        | .ok c => .ok (.firebase c)
        | .error m => .error ("Firebase token verification failed: " ++ m)
    else .error "Invalid Authorization header format"

/-- Outcome of a guarded endpoint: either the wrapped handler runs with
`g.current_user = user`, or the request is rejected with an HTTP status and
the JSON `error`/`message` fields. -/
inductive GateResult where
  | rejected (status : Nat) (error : String) (message : String)
  | admitted (user : UserContext)
deriving DecidableEq

/-- `require_auth` (`auth_middleware.py`): 401 on verification failure,
otherwise normalize the claims into `g.current_user` and invoke the wrapped
handler. -/
def require_auth (auth_header : Option String) (decode : String → Token)
    (fb : String → Except String FirebaseUserData) (now : Int) : GateResult :=
  match verify_auth_token auth_header decode fb now with
  | .error m => .rejected 401 "Authentication required" m
  | .ok (.custom p) => .admitted (extract_user_info p)
  | .ok (.firebase c) => .admitted (firebase_user_context_auth c)

/-- The admin decision computed by `require_admin`: the token's embedded
`is_admin` flag for custom tokens, super-admin-set membership of the email
for Firebase tokens. -/
def admin_flag_of : TokenData → Bool
  | .custom p => p.is_admin.getD false
  | .firebase c => email_is_super_admin c.email

/-- The post-verification part of `require_admin`: 403 when the admin check
fails, otherwise build `g.current_user` and invoke the wrapped handler. -/
def require_admin_postverify (td : TokenData) : GateResult :=
  if admin_flag_of td then
    match td with
    | .custom p => .admitted (extract_user_info p)
    | .firebase c => .admitted (firebase_user_context_admin c)
  else .rejected 403 "Admin access required" "Insufficient privileges"

/-- `require_admin` (`auth_middleware.py`). -/
def require_admin (auth_header : Option String) (decode : String → Token)
    (fb : String → Except String FirebaseUserData) (now : Int) : GateResult :=
  match verify_auth_token auth_header decode fb now with
  | .error m => .rejected 401 "Authentication required" m
  | .ok td => require_admin_postverify td

/-- A persisted admin record (`admin_users` collection, `admin_manager.py`).
ISO timestamp strings are modelled as `Nat` clock values; fields only written
by `remove_admin`/`update_admin` start absent (`none`). -/
structure AdminRecord where
  id : String
  email : String
  role : String
  status : String
  is_super_admin : Bool
  description : String
  added_by : String
  created_at : Nat
  updated_at : Nat
  last_login : Option Nat
  login_count : Nat
  removed_by : Option String
  removed_at : Option Nat
  updated_by : Option String
deriving DecidableEq

/-- Error results of the admin-registry operations, with the Python message
per constructor. -/
inductive AdminOpError where
  /-- "Invalid email format". -/
  | invalidEmailFormat
  /-- "Admin with email ... already exists". -/
  | adminAlreadyExists
  /-- "Admin not found". -/
  | adminNotFound
  /-- "Cannot remove super admin". -/
  | superAdminProtected
deriving DecidableEq

/-- Result dictionary of an admin-registry operation: `success` with the
returned record (when the operation returns one), or `success: False` with
an error. -/
inductive AdminOpResult where
  | ok (admin : Option AdminRecord)
  | err (e : AdminOpError)
deriving DecidableEq

/-- `AdminManager.get_all_admins`: streams every document of the collection.
The Python code additionally sorts by `created_at` (newest first); the order
is irrelevant to every property verified here and is not modelled. -/
def get_all_admins (reg : List AdminRecord) : List AdminRecord := reg

/-- `AdminManager.get_active_admins`: only records with status `'active'`. -/
def get_active_admins (reg : List AdminRecord) : List AdminRecord :=
  (get_all_admins reg).filter (fun a => a.status = "active")

/-- `AdminManager.is_admin`: super-admin-set membership, else an active
registry record with that email. -/
def is_admin_check (reg : List AdminRecord) (email : String) : Bool :=
  decide (email ∈ SUPER_ADMINS) || (get_active_admins reg).any (fun a => a.email = email)

/-- `AdminManager.add_admin` (`admin_manager.py`): email-shape validation
(`'@' not in email or '.' not in email`), duplicate check over all records
(active and removed), then creation of an `'active'` record whose
super-admin flag is set iff the email is in the fixed super-admin set.
`t` models `datetime.now()`, `new_id` the Firestore-generated document id. -/
def add_admin (reg : List AdminRecord) (email role added_by description : String)
    (t : Nat) (new_id : String) : AdminOpResult × List AdminRecord :=
  if !(contains_char email '@' && contains_char email '.') then
    (.err .invalidEmailFormat, reg)
  else if (get_all_admins reg).any (fun a => a.email = email) then
    (.err .adminAlreadyExists, reg)
  else
    let admin_data : AdminRecord :=
      { id := new_id, email := email, role := role, status := "active"
        is_super_admin := decide (email ∈ SUPER_ADMINS)
        description := description, added_by := added_by
        created_at := t, updated_at := t
        last_login := none, login_count := 0
        removed_by := none, removed_at := none, updated_by := none }
    (.ok (some admin_data), reg ++ [admin_data])

/-- `AdminManager.remove_admin` (`admin_manager.py`): `'Admin not found'` if
no document has the id; `'Cannot remove super admin'` if the target has the
super-admin flag or its email is in the fixed set; otherwise a soft delete
(status `'removed'`, remover and timestamps recorded). -/
def remove_admin (reg : List AdminRecord) (admin_id removed_by : String) (t : Nat) :
    AdminOpResult × List AdminRecord :=
  match reg.find? (fun r => r.id = admin_id) with
  | none => (.err .adminNotFound, reg)
  | some r =>
    if r.is_super_admin || decide (r.email ∈ SUPER_ADMINS) then
      (.err .superAdminProtected, reg)
    else
      (.ok none,
        reg.map (fun x =>
          if x.id = admin_id then
            { x with status := "removed", removed_by := some removed_by,
                     removed_at := some t, updated_at := t }
          else x))

/-- The `updates` dictionary passed to `AdminManager.update_admin`: `none`
means the key is absent.  (A key stored with value `None` is not
representable; no caller produces one.) -/
structure AdminUpdates where
  email : Option String := none
  role : Option String := none
  status : Option String := none
  is_super_admin : Option Bool := none
  description : Option String := none
  last_login : Option Nat := none
  login_count : Option Nat := none
deriving DecidableEq

/-- Firestore partial-merge of an updates dictionary into a record, together
with the metadata `update_admin` adds (`updated_at` always, `updated_by`
only when truthy). -/
def apply_updates (r : AdminRecord) (u : AdminUpdates) (updated_by : String) (t : Nat) :
    AdminRecord :=
  { r with
    email := u.email.getD r.email
    role := u.role.getD r.role
    status := u.status.getD r.status
    is_super_admin := u.is_super_admin.getD r.is_super_admin
    description := u.description.getD r.description
    last_login := match u.last_login with | some v => some v | none => r.last_login
    login_count := u.login_count.getD r.login_count
    updated_at := t
    updated_by := if updated_by = "" then r.updated_by else some updated_by }

/-- `AdminManager.update_admin` (`admin_manager.py`): `'Admin not found'` if
the id is absent; silently deletes the `is_super_admin` key from the updates
when the target's email is in the fixed super-admin set; merges the
remaining fields and returns the re-fetched record. -/
def update_admin (reg : List AdminRecord) (admin_id : String) (updates : AdminUpdates)
    (updated_by : String) (t : Nat) : AdminOpResult × List AdminRecord :=
  match reg.find? (fun r => r.id = admin_id) with
  | none => (.err .adminNotFound, reg)
  | some r =>
    let updates' :=
      if updates.is_super_admin.isSome && decide (r.email ∈ SUPER_ADMINS) then
        { updates with is_super_admin := none }
      else updates
    let reg' := reg.map (fun x =>
      if x.id = admin_id then apply_updates x updates' updated_by t else x)
    (.ok (reg'.find? (fun x => x.id = admin_id)), reg')

/-- Number of registry records carrying a given email. -/
def count_email (reg : List AdminRecord) (email : String) : Nat :=
  (reg.filter (fun r => r.email = email)).length

/-- One public-key descriptor of the JWKS document (`kid` plus the remaining
JWK data, from which `RSAAlgorithm.from_jwk` builds the verification key —
abstracted as an opaque string payload). -/
structure JKey where
  kid : Option String
  jwk : String
deriving DecidableEq

/-- The fetched JWKS document: a JSON object with a `keys` array
(`jwks.get('keys', [])`).  The stored object is a nonempty JSON object, so
Python truthiness of the cache slot coincides with its presence. -/
structure Jwks where
  keys : List JKey
deriving DecidableEq

/-- The module-level `_jwks_cache` of `auth_middleware.py`
(`{'keys': None, 'fetched_at': 0}`), extended with `nfetched`, an
instrumentation counter of how many network fetches (`_fetch_jwks`) have
been performed — it exists only so the fetch-count claims can be stated. -/
structure JwksState where
  keys : Option Jwks
  fetched_at : Nat
  nfetched : Nat
deriving DecidableEq

/-- `_get_jwks_cached` (`auth_middleware.py`): return the cached document if
present and younger than the 3600-second TTL, else fetch (`env` gives the
result of the n-th network fetch) and stamp the cache with the current
time. -/
def get_jwks_cached (env : Nat → Jwks) (now : Nat) (st : JwksState) :
    Jwks × JwksState :=
  match st.keys with
  | some j =>
    if now - st.fetched_at < 3600 then (j, st)
    else
      let jw := env st.nfetched
      (jw, { keys := some jw, fetched_at := now, nfetched := st.nfetched + 1 })
  | none =>
    let jw := env st.nfetched
    (jw, { keys := some jw, fetched_at := now, nfetched := st.nfetched + 1 })

/-- The key-id lookup of `_verify_with_jwks` (`auth_middleware.py`): search
the cached document for `kid`; on miss, blank the cache
(`_jwks_cache['keys'] = None`), refetch once through `_get_jwks_cached`, and
retry; `none` models the final `ValueError('Unable to find matching JWKS
key')`. -/
def find_key (env : Nat → Jwks) (now : Nat) (st : JwksState) (kid : String) :
    Option JKey × JwksState :=
  let r₁ := get_jwks_cached env now st
  match r₁.1.keys.find? (fun k => k.kid = some kid) with
  | some k => (some k, r₁.2)
  | none =>
    let st₂ := { r₁.2 with keys := none }
    let r₂ := get_jwks_cached env now st₂
    (r₂.1.keys.find? (fun k => k.kid = some kid), r₂.2)

/-- C2: `require_admin`'s privilege decision is the session token's embedded
`is_admin` flag for custom tokens and super-admin-set membership of the
bearer's email for identity-provider tokens; after a successful verification
the gate is exactly `require_admin_postverify` of the decision; a failed
check is rejected 403 "Insufficient privileges" (while verification failures
are rejected 401, a distinct authorization-vs-authentication outcome); and
the check never consults the admin registry: a Firebase bearer whose email
is an admin per the registry (`is_admin_check`) but outside the fixed
super-admin set is still rejected 403, for every registry state. -/
theorem C2_admin_decision_sources :
    (∀ p : CustomPayload, admin_flag_of (.custom p) = p.is_admin.getD false) ∧
    (∀ (c : FirebaseUserData) (e : String), c.email = some e → e ≠ "" →
      admin_flag_of (.firebase c) = decide (e ∈ SUPER_ADMINS)) ∧
    (∀ (auth_header : Option String) (decode : String → Token)
        (fb : String → Except String FirebaseUserData) (now : Int) (td : TokenData),
      verify_auth_token auth_header decode fb now = .ok td →
      require_admin auth_header decode fb now = require_admin_postverify td) ∧
    (∀ td : TokenData, admin_flag_of td = false →
      require_admin_postverify td =
        .rejected 403 "Admin access required" "Insufficient privileges") ∧
    (∀ (auth_header : Option String) (decode : String → Token)
        (fb : String → Except String FirebaseUserData) (now : Int) (m : String),
      verify_auth_token auth_header decode fb now = .error m →
      require_admin auth_header decode fb now = .rejected 401 "Authentication required" m) ∧
    (∀ (reg : List AdminRecord) (c : FirebaseUserData) (e : String),
      c.email = some e → is_admin_check reg e = true → e ∉ SUPER_ADMINS →
      require_admin_postverify (.firebase c) =
        .rejected 403 "Admin access required" "Insufficient privileges") := by
  refine ⟨fun _ => rfl, ?_, ?_, ?_, ?_, ?_⟩
  · intro c e he hne
    simp [admin_flag_of, email_is_super_admin, he, hne]
  · intro h d f now td hv
    simp [require_admin, hv]
  · intro td hflag
    simp [require_admin_postverify, hflag]
  · intro h d f now m hv
    simp [require_admin, hv]
  · intro reg c e he hreg hnotsa
    have hflag : admin_flag_of (.firebase c) = false := by
      simp [admin_flag_of, email_is_super_admin, he]
      intro; exact hnotsa
    simp [require_admin_postverify, hflag]

/-- The environment functions used by middleware witnesses: every token
string decodes to `wPayload` correctly signed (for the admitted cases) or to
nothing, and the Firebase path always fails. -/
def wDecode : String → Token := fun _ => .signed wPayload true

/-- Decode environment that decodes nothing. -/
def wDecodeNone : String → Token := fun _ => .malformed

/-- Firebase verification environment used by witnesses: claims for the
registry-admin-but-not-super-admin email `x@y.com`. -/
def wFb : String → Except String FirebaseUserData :=
  fun _ => .ok { uid := some "u2", email := some "x@y.com" }

/-- A registry consisting of one active admin record for `x@y.com`. -/
def wReg : List AdminRecord :=
  [{ id := "a9", email := "x@y.com", role := "admin", status := "active",
     is_super_admin := false, description := "", added_by := "t",
     created_at := 0, updated_at := 0, last_login := none, login_count := 0,
     removed_by := none, removed_at := none, updated_by := none }]

/-- Witness for C2: the non-admin session payload `wPayload` is rejected 403;
and a Firebase bearer `x@y.com` that IS an admin according to the registry
`wReg` is still rejected 403. -/
theorem C2_witness :
    require_admin_postverify (.custom wPayload) =
      .rejected 403 "Admin access required" "Insufficient privileges" ∧
    require_admin_postverify (.firebase { uid := some "u2", email := some "x@y.com" }) =
      .rejected 403 "Admin access required" "Insufficient privileges" :=
  ⟨C2_admin_decision_sources.2.2.2.1 (.custom wPayload) rfl,
   C2_admin_decision_sources.2.2.2.2.2 wReg { uid := some "u2", email := some "x@y.com" }
     "x@y.com" rfl (by decide) (by decide)⟩

/-- C10: whenever `require_admin` admits a request (the wrapped handler runs),
the attached user context has `is_admin = true` — the Firebase branch stores
the literal `True`, and the custom branch stores the token's embedded flag,
which the privilege check has just established is `true`. -/
theorem C10_admitted_implies_admin_context
    (auth_header : Option String) (decode : String → Token)
    (fb : String → Except String FirebaseUserData) (now : Int) (u : UserContext)
    (h : require_admin auth_header decode fb now = .admitted u) :
    u.is_admin = true := by
  unfold require_admin at h
  cases hv : verify_auth_token auth_header decode fb now with
  | error m => rw [hv] at h; exact GateResult.noConfusion h
  | ok td =>
    rw [hv] at h
    replace h : require_admin_postverify td = GateResult.admitted u := h
    unfold require_admin_postverify at h
    by_cases hflag : admin_flag_of td = true
    · rw [if_pos hflag] at h
      cases td with
      | custom p =>
        injection h with h
        rw [← h]
        simpa [extract_user_info, admin_flag_of] using hflag
      | firebase c =>
        injection h with h
        rw [← h]
        rfl
    · rw [if_neg hflag] at h
      exact GateResult.noConfusion h

/-- The super-admin session payload used by the C10 witness. -/
def wAdminPayload : CustomPayload :=
  generate_custom_token { uid := some "u1", email := some "ouday.khaled@gmail.com" } 0

/-- Witness for C10: a request bearing a correctly-signed super-admin session
token is admitted, and the theorem yields `is_admin = true` for its context. -/
theorem C10_witness : (extract_user_info wAdminPayload).is_admin = true :=
  C10_admitted_implies_admin_context (some "Bearer tok")
    (fun _ => .signed wAdminPayload true) (fun _ => .error "x") 0
    (extract_user_info wAdminPayload) (by decide)

/-- C6 (amended): a request with no authorization header is rejected with the
header-missing error before any token processing (for every decode/verify
environment, hence independently of any token), and so is a request whose
header value is the empty string (the code's falsy check treats it as
absent); a request whose header is present, nonempty and not of `Bearer`
form is rejected with the malformed-header error; in all three cases the
result is a rejection, so the wrapped operation is never invoked. -/
theorem C6_header_rejections (decode : String → Token)
    (fb : String → Except String FirebaseUserData) (now : Int) :
    (require_auth none decode fb now =
        .rejected 401 "Authentication required" "No Authorization header provided" ∧
      require_admin none decode fb now =
        .rejected 401 "Authentication required" "No Authorization header provided") ∧
    (require_auth (some "") decode fb now =
        .rejected 401 "Authentication required" "No Authorization header provided" ∧
      require_admin (some "") decode fb now =
        .rejected 401 "Authentication required" "No Authorization header provided") ∧
    (∀ s : String, s ≠ "" → starts_with s "Bearer " = false →
      require_auth (some s) decode fb now =
          .rejected 401 "Authentication required" "Invalid Authorization header format" ∧
        require_admin (some s) decode fb now =
          .rejected 401 "Authentication required" "Invalid Authorization header format") := by
  refine ⟨⟨rfl, rfl⟩, ⟨rfl, rfl⟩, ?_⟩
  intro s hne hnb
  have hv : verify_auth_token (some s) decode fb now =
      .error "Invalid Authorization header format" := by
    simp [verify_auth_token, hne, hnb]
  exact ⟨by simp [require_auth, hv], by simp [require_admin, hv]⟩

/-- Witness for C6 (amended): the malformed-header case at the concrete
header value `"Token abc"`. -/
theorem C6_witness :
    require_auth (some "Token abc") wDecodeNone wFb 0 =
        .rejected 401 "Authentication required" "Invalid Authorization header format" ∧
      require_admin (some "Token abc") wDecodeNone wFb 0 =
        .rejected 401 "Authentication required" "Invalid Authorization header format" :=
  (C6_header_rejections wDecodeNone wFb 0).2.2 "Token abc" (by decide) (by decide)

/-- Counterexample for C6 as stated: the empty string is a present header
value that is not of `Bearer <token>` form, yet the request is rejected with
the header-missing message, not the malformed-header message. -/
theorem C6_counterexample :
    starts_with "" "Bearer " = false ∧
    require_auth (some "") wDecodeNone wFb 0 =
      .rejected 401 "Authentication required" "No Authorization header provided" ∧
    ("No Authorization header provided" : String) ≠ "Invalid Authorization header format" :=
  ⟨rfl, rfl, by decide⟩

/-- C9: `add_admin` rejects an email lacking `'@'` or `'.'` with the
invalid-format error, leaving the registry unchanged; when any record (of
any status) already carries the email, it fails with the already-exists
error, the registry is unchanged, and in particular a registry holding
exactly one record for the email still holds exactly one; and a successful
add appends a record with status `'active'` whose super-admin flag is set
iff the email is in the fixed super-admin set. -/
theorem C9_add_admin
    (reg : List AdminRecord) (email role added_by description : String)
    (t : Nat) (new_id : String) :
    ((contains_char email '@' && contains_char email '.') = false →
      add_admin reg email role added_by description t new_id =
        (.err .invalidEmailFormat, reg)) ∧
    ((contains_char email '@' && contains_char email '.') = true →
      (∃ r ∈ reg, r.email = email) →
      add_admin reg email role added_by description t new_id =
          (.err .adminAlreadyExists, reg) ∧
        (count_email reg email = 1 →
          count_email (add_admin reg email role added_by description t new_id).2 email = 1)) ∧
    ((contains_char email '@' && contains_char email '.') = true →
      (∀ r ∈ reg, r.email ≠ email) →
      ∃ rec : AdminRecord,
        add_admin reg email role added_by description t new_id =
          (.ok (some rec), reg ++ [rec]) ∧
        rec.email = email ∧ rec.status = "active" ∧
        rec.is_super_admin = decide (email ∈ SUPER_ADMINS)) := by
  refine ⟨?_, ?_, ?_⟩
  · intro hbad
    simp [add_admin, hbad]
  · intro hok hex
    have hany : (get_all_admins reg).any (fun a => a.email = email) = true := by
      simp only [get_all_admins, List.any_eq_true, decide_eq_true_eq]
      exact hex
    have heq : add_admin reg email role added_by description t new_id =
        (.err .adminAlreadyExists, reg) := by
      simp [add_admin, hok, hany]
    exact ⟨heq, fun h₁ => by rw [heq]; exact h₁⟩
  · intro hok hnone
    have hany : (get_all_admins reg).any (fun a => a.email = email) = false := by
      simp only [get_all_admins, List.any_eq_false, decide_eq_true_eq]
      exact hnone
    refine ⟨{ id := new_id, email := email, role := role, status := "active",
              is_super_admin := decide (email ∈ SUPER_ADMINS),
              description := description, added_by := added_by,
              created_at := t, updated_at := t, last_login := none, login_count := 0,
              removed_by := none, removed_at := none, updated_by := none },
      ?_, rfl, rfl, rfl⟩
    simp [add_admin, hok, hany]

/-- Witness for C9: `"not-an-email"` is rejected with the invalid-format
error on the registry `wReg`; re-adding `x@y.com` to `wReg` fails with the
already-exists error and `wReg` still holds exactly one such record; and
adding `a@b.com` to the empty registry creates an active, non-super-admin
record. -/
theorem C9_witness :
    add_admin wReg "not-an-email" "admin" "t" "" 3 "n1" =
      (.err .invalidEmailFormat, wReg) ∧
    (add_admin wReg "x@y.com" "admin" "t" "" 3 "n1" = (.err .adminAlreadyExists, wReg) ∧
      (count_email wReg "x@y.com" = 1 → count_email (add_admin wReg "x@y.com" "admin" "t" "" 3 "n1").2 "x@y.com" = 1)) ∧
    (∃ rec : AdminRecord,
      add_admin [] "a@b.com" "admin" "t" "" 3 "n1" = (.ok (some rec), [] ++ [rec]) ∧
      rec.email = "a@b.com" ∧ rec.status = "active" ∧
      rec.is_super_admin = decide ("a@b.com" ∈ SUPER_ADMINS)) :=
  ⟨(C9_add_admin wReg "not-an-email" "admin" "t" "" 3 "n1").1 (by decide),
   (C9_add_admin wReg "x@y.com" "admin" "t" "" 3 "n1").2.1 (by decide)
     ⟨wReg.head (by decide), by decide, by decide⟩,
   (C9_add_admin [] "a@b.com" "admin" "t" "" 3 "n1").2.2 (by decide)
     (fun r hr => absurd hr (List.not_mem_nil r))⟩

/-- C1 (amended): for a registry record whose email is in the fixed
super-admin set, `remove_admin` always fails with the super-admin-protected
error and leaves the registry unchanged, and no single `update_admin` call
(with any fields, from any caller) changes any record's super-admin flag —
the `is_super_admin` key is silently stripped from the updates.  (The
status part of the original claim is refuted by `C1_counterexample`:
`update_admin` does not protect the `status` field.) -/
theorem C1_super_admin_protection
    (reg : List AdminRecord) (admin_id removed_by updated_by : String)
    (updates : AdminUpdates) (t : Nat) (r : AdminRecord)
    (hfind : reg.find? (fun x => x.id = admin_id) = some r)
    (hsa : r.email ∈ SUPER_ADMINS) :
    remove_admin reg admin_id removed_by t = (.err .superAdminProtected, reg) ∧
    ((update_admin reg admin_id updates updated_by t).2.map (fun x => x.is_super_admin)
      = reg.map (fun x => x.is_super_admin)) := by
  have hdec : decide (r.email ∈ SUPER_ADMINS) = true := decide_eq_true hsa
  constructor
  · unfold remove_admin
    simp only [hfind]
    rw [if_pos (by simp [hdec])]
  · unfold update_admin
    simp only [hfind]
    rw [List.map_map]
    apply List.map_congr_left
    intro x _
    simp only [Function.comp_apply]
    cases hu : updates.is_super_admin with
    | some v =>
      simp only [hu, hdec, Option.isSome_some, Bool.true_and, Bool.and_true, if_true]
      split
      · simp [apply_updates]
      · rfl
    | none =>
      rw [if_neg (by simp :
        ¬ ((none : Option Bool).isSome && decide (r.email ∈ SUPER_ADMINS)) = true)]
      split
      · simp [apply_updates, hu]
      · rfl

/-- The registry record of the super admin `ouday.khaled@gmail.com`, as
`ensure_super_admins_exist` would create it. -/
def wSuperRec : AdminRecord :=
  { id := "a1", email := "ouday.khaled@gmail.com", role := "super_admin",
    status := "active", is_super_admin := true,
    description := "System-generated super admin", added_by := "system",
    created_at := 0, updated_at := 0, last_login := none, login_count := 0,
    removed_by := none, removed_at := none, updated_by := none }

/-- Witness for C1 (amended): on the one-record registry `[wSuperRec]`,
removal fails with the protected error and an update that tries to clear the
super-admin flag leaves every flag unchanged. -/
theorem C1_witness :
    remove_admin [wSuperRec] "a1" "mallory" 7 = (.err .superAdminProtected, [wSuperRec]) ∧
    ((update_admin [wSuperRec] "a1" { is_super_admin := some false } "mallory" 7).2.map
        (fun x => x.is_super_admin)
      = [wSuperRec].map (fun x => x.is_super_admin)) :=
  C1_super_admin_protection [wSuperRec] "a1" "mallory" "mallory"
    { is_super_admin := some false } 7 wSuperRec (by decide) (by decide)

/-- The state of the super-admin record after the status `'removed'` update
of `C1_counterexample`. -/
def wSuperRecRemoved : AdminRecord :=
  { wSuperRec with status := "removed", updated_at := 7, updated_by := some "mallory" }

/-- Counterexample for C1 as stated: an `update_admin` call carrying
`status := 'removed'` on the super-admin record succeeds and transitions the
record's status to `'removed'` — the update path protects only the
`is_super_admin` field, not `status`, so the status=`active` invariant and
the "no update can transition its status to `removed`" part of the claim
fail on the code. -/
theorem C1_counterexample :
    wSuperRec.email ∈ SUPER_ADMINS ∧ wSuperRec.status = "active" ∧
    ((update_admin [wSuperRec] "a1" { status := some "removed" } "mallory" 7).2.map
      (fun x => x.status) = ["removed"]) ∧
    (update_admin [wSuperRec] "a1" { status := some "removed" } "mallory" 7).1 =
      .ok (some wSuperRecRemoved) :=
  ⟨by decide, rfl, by decide, by decide⟩

/-- C5: (a) two cache lookups at times `t₁ ≤ t₂` lying within one TTL window
(3600 s) of each other perform at most one network fetch in total, from any
starting cache state; (b) a lookup made once the cached set's age has
reached the TTL performs exactly one fresh fetch and returns its result;
(c) `find_key` on a key id absent from a populated, fresh cache performs
exactly one forced refetch and retries the lookup once on the fresh set —
reporting not-found only if the fresh set also lacks the id. -/
theorem C5_jwks_cache_behaviour :
    (∀ (env : Nat → Jwks) (st : JwksState) (t₁ t₂ : Nat), t₁ ≤ t₂ → t₂ < t₁ + 3600 →
      (get_jwks_cached env t₂ (get_jwks_cached env t₁ st).2).2.nfetched ≤ st.nfetched + 1) ∧
    (∀ (env : Nat → Jwks) (st : JwksState) (t : Nat) (j : Jwks),
      st.keys = some j → st.fetched_at + 3600 ≤ t →
      (get_jwks_cached env t st).2.nfetched = st.nfetched + 1 ∧
      (get_jwks_cached env t st).1 = env st.nfetched) ∧
    (∀ (env : Nat → Jwks) (st : JwksState) (t : Nat) (j : Jwks) (kid : String),
      st.keys = some j → t < st.fetched_at + 3600 →
      (∀ k ∈ j.keys, k.kid ≠ some kid) →
      (find_key env t st kid).2.nfetched = st.nfetched + 1 ∧
      (find_key env t st kid).1 = (env st.nfetched).keys.find? (fun k => k.kid = some kid)) := by
  have hfreshEq : ∀ (env : Nat → Jwks) (now : Nat) (st : JwksState) (j : Jwks),
      st.keys = some j → now - st.fetched_at < 3600 →
      get_jwks_cached env now st = (j, st) := by
    intro env now st j hk h
    unfold get_jwks_cached
    simp only [hk]
    rw [if_pos h]
  have hfetchEq : ∀ (env : Nat → Jwks) (now : Nat) (st : JwksState) (j : Jwks),
      st.keys = some j → ¬ now - st.fetched_at < 3600 →
      get_jwks_cached env now st =
        (env st.nfetched,
         { keys := some (env st.nfetched), fetched_at := now, nfetched := st.nfetched + 1 }) := by
    intro env now st j hk h
    unfold get_jwks_cached
    simp only [hk]
    rw [if_neg h]
  have hnoneEq : ∀ (env : Nat → Jwks) (now : Nat) (st : JwksState),
      st.keys = none →
      get_jwks_cached env now st =
        (env st.nfetched,
         { keys := some (env st.nfetched), fetched_at := now, nfetched := st.nfetched + 1 }) := by
    intro env now st hk
    unfold get_jwks_cached
    simp only [hk]
  refine ⟨?_, ?_, ?_⟩
  · intro env st t₁ t₂ h₁ h₂
    cases hk : st.keys with
    | none =>
      rw [hnoneEq env t₁ st hk]
      rw [hfreshEq env t₂ _ (env st.nfetched) rfl (by simp; omega)]
    | some j =>
      by_cases hfresh : t₁ - st.fetched_at < 3600
      · rw [hfreshEq env t₁ st j hk hfresh]
        by_cases hfresh₂ : t₂ - st.fetched_at < 3600
        · rw [hfreshEq env t₂ st j hk hfresh₂]
          show st.nfetched ≤ st.nfetched + 1
          omega
        · rw [hfetchEq env t₂ st j hk hfresh₂]
      · rw [hfetchEq env t₁ st j hk hfresh]
        rw [hfreshEq env t₂ _ (env st.nfetched) rfl (by simp; omega)]
  · intro env st t j hk hstale
    rw [hfetchEq env t st j hk (by omega)]
    exact ⟨rfl, rfl⟩
  · intro env st t j kid hk hfresh hmiss
    have hnone : j.keys.find? (fun k => k.kid = some kid) = none := by
      rw [List.find?_eq_none]
      intro k hkmem
      simpa using hmiss k hkmem
    unfold find_key
    rw [hfreshEq env t st j hk (by omega)]
    simp only [hnone]
    rw [hnoneEq env t _ rfl]
    exact ⟨rfl, rfl⟩

/-- Witness for C5: from a populated cache fetched at time 0 holding only key
id `k1`, (a) lookups at times 10 and 20 leave the fetch counter at 0;
(b) a lookup at time 3600 performs the one fresh fetch; (c) `find_key` for
the absent id `k2` at time 10 forces one refetch and finds `k2` in the fresh
set. -/
theorem C5_witness :
    (get_jwks_cached (fun _ => { keys := [{ kid := some "k2", jwk := "J2" }] }) 20
      (get_jwks_cached (fun _ => { keys := [{ kid := some "k2", jwk := "J2" }] }) 10
        { keys := some { keys := [{ kid := some "k1", jwk := "J1" }] },
          fetched_at := 0, nfetched := 0 }).2).2.nfetched ≤ 0 + 1 ∧
    (get_jwks_cached (fun _ => { keys := [{ kid := some "k2", jwk := "J2" }] }) 3600
      { keys := some { keys := [{ kid := some "k1", jwk := "J1" }] },
        fetched_at := 0, nfetched := 0 }).2.nfetched = 0 + 1 ∧
    (find_key (fun _ => { keys := [{ kid := some "k2", jwk := "J2" }] }) 10
      { keys := some { keys := [{ kid := some "k1", jwk := "J1" }] },
        fetched_at := 0, nfetched := 0 } "k2").1 = some { kid := some "k2", jwk := "J2" } := by
  refine ⟨?_, ?_, ?_⟩
  · exact C5_jwks_cache_behaviour.1 (fun _ => { keys := [{ kid := some "k2", jwk := "J2" }] })
      { keys := some { keys := [{ kid := some "k1", jwk := "J1" }] },
        fetched_at := 0, nfetched := 0 } 10 20 (by decide) (by decide)
  · exact (C5_jwks_cache_behaviour.2.1 (fun _ => { keys := [{ kid := some "k2", jwk := "J2" }] })
      { keys := some { keys := [{ kid := some "k1", jwk := "J1" }] },
        fetched_at := 0, nfetched := 0 } 3600 { keys := [{ kid := some "k1", jwk := "J1" }] }
      rfl (by decide)).1
  · have h := (C5_jwks_cache_behaviour.2.2 (fun _ => { keys := [{ kid := some "k2", jwk := "J2" }] })
      { keys := some { keys := [{ kid := some "k1", jwk := "J1" }] },
        fetched_at := 0, nfetched := 0 } 10 { keys := [{ kid := some "k1", jwk := "J1" }] }
      "k2" rfl (by decide) (by decide)).2
    rw [h]
    rfl

end Thakii
